import Mathlib

/-!
Shallow embedding of the docmanager2 repository (Python / FastAPI / SQLAlchemy)
for checking its natural-language specification.

The embedding follows the source files:
  app/models/metadata.py, app/models/document.py, app/models/document_version.py
  app/repositories/metadata_repository.py, app/repositories/document_repository.py
  app/services/metadata_service.py, app/services/document_service.py
  app/storage/implementations/local_storage.py, app/storage/implementations/s3_storage.py

Database tables are modelled as Lean lists of row structures in insertion
order; a committed SQLAlchemy session is a value of the `DB` structure, and
each repository/service operation is a function from `DB` to `DB` paired with
an `Except PyError` result (a raised Python exception is `.error`).  A failed
statement inserts nothing, and `db.rollback()` returns the last committed
state, so an operation that raises inside one commit unit returns the input
`DB` unchanged.
-/

namespace DocManager

/-- JSON-ish Python runtime values as they arrive in a metadata map
(parsed request bodies contain exactly these shapes). -/
inductive PyVal where
  | none
  | bool (b : Bool)
  | int (n : Int)
  | str (s : String)
  | list (xs : List PyVal)

/-- Python `isinstance(v, str)`. -/
def isinstStr : PyVal → Bool
  | .str _ => true
  | _ => false

/-- Python `isinstance(v, int)`: `bool` is a subclass of `int`, so booleans
are instances of `int` as well. -/
def isinstInt : PyVal → Bool
  | .int _ => true
  | .bool _ => true
  | _ => false

/-- Python `isinstance(v, bool)`. -/
def isinstBool : PyVal → Bool
  | .bool _ => true
  | _ => false

/-- Python `isinstance(v, list)`. -/
def isinstList : PyVal → Bool
  | .list _ => true
  | _ => false

/-- Python standard-library behaviour the code defers to.
`fromisoformat s = true` means `datetime.fromisoformat(s)` succeeds;
`jsonLoadsErr s = some m` means `json.loads(s)` raises with message `m`. -/
structure PyLib where
  fromisoformat : String → Bool
  jsonLoadsErr : String → Option String

/-- Exceptions raised by the embedded code paths. -/
inductive PyError where
  | metadataValidationError (msg : String)
  | attributeError (msg : String)
  | integrityError (msg : String)
  | httpException (status : Nat) (detail : String)
  | valueError (msg : String)
  | dbError (msg : String)

/-- `MetadataType` enum, app/models/metadata.py. -/
inductive MetadataType where
  | text
  | integer
  | date
  | enum
  | boolean

/-- A row of the `metadata_fields` table (app/models/metadata.py).
Nullable string columns are `Option String`; a stored SQL NULL is `none`. -/
structure MetadataField where
  id : Nat
  name : String
  description : Option String
  field_type : MetadataType
  is_multi_valued : Bool
  enum_values : Option String
  validation_rules : Option String
  default_value : Option String

/-- Python truthiness of an `Optional[str]` column value:
`None` and the empty string are falsy. -/
def strTruthy : Option String → Bool
  | Option.none => false
  | some s => s ≠ ""

/-- `MetadataService.validate_metadata_value` (app/services/metadata_service.py
lines 30-69).  Returns `ok ()` where the Python method returns `True`;
a raised `MetadataValidationError` is `.error (.metadataValidationError msg)`.
The `field.validation_rules` block only calls `json.loads`; a decoding
failure is caught by the blanket `except Exception` clause and re-raised as a
`MetadataValidationError` prefixed with the field name. -/
def validate_metadata_value (lib : PyLib) (field : MetadataField) (value : PyVal) :
    Except PyError Unit :=
  match value with
  | .none => .ok ()
  | _ =>
    let typeCheck : Except PyError Unit :=
      match field.field_type with
      | .text =>
        if !(isinstStr value) then
          .error (.metadataValidationError ("Field " ++ field.name ++ " must be a string"))
        else .ok ()
      | .integer =>
        if !(isinstInt value) then
          .error (.metadataValidationError ("Field " ++ field.name ++ " must be an integer"))
        else .ok ()
      | .date =>
        match value with
        | .str s =>
          if lib.fromisoformat s then .ok ()
          else .error (.metadataValidationError
            ("Field " ++ field.name ++ " must be a valid ISO date string"))
        | _ => .error (.metadataValidationError
            ("Field " ++ field.name ++ " must be a valid ISO date string"))
      | .enum =>
        if !(strTruthy field.enum_values) then
          .error (.metadataValidationError
            ("No enum values defined for field " ++ field.name))
        else
          let valid_values := ((field.enum_values.getD "").splitOn ",").map String.trim
          let isMember := match value with
            | .str s => valid_values.contains s
            | _ => false
          if !isMember then
            .error (.metadataValidationError
              ("Value for " ++ field.name ++ " must be one of: " ++
                String.intercalate ", " valid_values))
          else .ok ()
      | .boolean =>
        if !(isinstBool value) then
          .error (.metadataValidationError ("Field " ++ field.name ++ " must be a boolean"))
        else .ok ()
    match typeCheck with
    | .error e => .error e
    | .ok _ =>
      match field.validation_rules with
      | Option.none => .ok ()
      | some rules =>
        if rules ≠ "" then
          match lib.jsonLoadsErr rules with
          | some m => .error (.metadataValidationError
              ("Validation error for field " ++ field.name ++ ": " ++ m))
          | Option.none => .ok ()
        else .ok ()

/-- A row of the `document_types` table (app/models/metadata.py). -/
structure DocumentTypeRow where
  id : Nat
  name : String
  description : Option String

/-- A row of the `document_type_metadata` association table
(app/models/metadata.py lines 20-26).  The pair
(document_type_id, metadata_field_id) is the composite primary key. -/
structure AssocRow where
  document_type_id : Nat
  metadata_field_id : Nat
  is_required : Bool

/-- A row of the `documents` table (app/models/document.py).  The
`created_at` / `updated_at` timestamp columns are server-generated and no
claim concerns them, so they are not modelled. -/
structure DocumentRow where
  id : Nat
  title : String
  content : String
  file_path : Option String
  file_name : Option String
  file_size : Option Nat
  document_type_id : Option Nat
  metadata_values : List (String × PyVal)

/-- A row of the `document_versions` table (app/models/document_version.py),
carrying the columns `DocumentRepository.update` writes; the surrogate `id`
and the server-generated `created_at` are not modelled. -/
structure VersionRow where
  document_id : Nat
  version_number : Nat
  title : String
  content : String
  file_name : Option String
  file_path : Option String
  file_size : Option Nat

/-- The committed database state: every table as a list of rows in insertion
order (SQLite assigns rowids in insertion order, and unordered queries return
rows in that order). -/
structure DB where
  metadata_fields : List MetadataField
  document_types : List DocumentTypeRow
  document_type_metadata : List AssocRow
  documents : List DocumentRow
  versions : List VersionRow

/-- `DocumentTypeRepository.get_document_type`: first row with the given id
(ids are the primary key, hence unique). -/
def getDocumentType (db : DB) (type_id : Nat) : Option DocumentTypeRow :=
  db.document_types.find? (fun t => t.id == type_id)

/-- The `DocumentType.metadata_fields` relationship: all metadata fields
joined through `document_type_metadata` for the given type.  The relational
join yields field rows in the `metadata_fields` table order. -/
def typeMetadataFields (db : DB) (type_id : Nat) : List MetadataField :=
  db.metadata_fields.filter (fun f =>
    db.document_type_metadata.any (fun a =>
      a.document_type_id == type_id && a.metadata_field_id == f.id))

/-- The message of the `AttributeError` raised by evaluating
`doc_type.metadata_fields_association` in
`MetadataService.validate_document_metadata` (line 79): the `DocumentType`
model (app/models/metadata.py) defines no attribute of that name. -/
def attrErrMsg : String :=
  "DocumentType object has no attribute metadata_fields_association"

/-- The required-fields loop of `validate_document_metadata` (lines 77-83).
Its body first builds a generator over `doc_type.metadata_fields_association`;
the generator expression evaluates that attribute access eagerly, and
`DocumentType` has no such attribute, so the first iteration raises
`AttributeError`.  Hence the loop finishes only when the type has no
associated fields. -/
def requiredFieldsLoop : List MetadataField → Except PyError Unit
  | [] => .ok ()
  | _ :: _ => .error (.attributeError attrErrMsg)

/-- The inner loop of lines 94-95: validate each element of a multi-valued
value; the first raised error propagates. -/
def validateEachValue (lib : PyLib) (field : MetadataField) :
    List PyVal → Except PyError Unit
  | [] => .ok ()
  | v :: vs =>
    match validate_metadata_value lib field v with
    | .error e => .error e
    | .ok _ => validateEachValue lib field vs

/-- The provided-values loop of `validate_document_metadata` (lines 86-97):
for each key of the metadata map (a Python dict iterates in insertion order),
resolve the field by name among the type's fields, reject unknown keys,
require a list for multi-valued fields, and run the per-field value check. -/
def validateValues (lib : PyLib) (fields : List MetadataField) :
    List (String × PyVal) → Except PyError Unit
  | [] => .ok ()
  | (field_name, value) :: rest =>
    match fields.find? (fun f => f.name == field_name) with
    | Option.none =>
      .error (.metadataValidationError ("Unknown metadata field: " ++ field_name))
    | some field =>
      if field.is_multi_valued then
        match value with
        | .list xs =>
          match validateEachValue lib field xs with
          | .error e => .error e
          | .ok _ => validateValues lib fields rest
        | _ => .error (.metadataValidationError
            ("Field " ++ field_name ++ " expects multiple values"))
      else
        match validate_metadata_value lib field value with
        | .error e => .error e
        | .ok _ => validateValues lib fields rest

/-- `MetadataService.validate_document_metadata` (lines 71-99). -/
def validate_document_metadata (lib : PyLib) (db : DB) (document_type_id : Nat)
    (metadata_values : List (String × PyVal)) : Except PyError Bool :=
  match getDocumentType db document_type_id with
  | Option.none => .error (.metadataValidationError "Document type not found")
  | some doc_type =>
    match requiredFieldsLoop (typeMetadataFields db doc_type.id) with
    | .error e => .error e
    | .ok _ =>
      match validateValues lib (typeMetadataFields db doc_type.id) metadata_values with
      | .error e => .error e
      | .ok _ => .ok true

/-- `DocumentRepository.get_by_id`: first document row with the given id
(`id` is the primary key, hence unique). -/
def getById (db : DB) (document_id : Nat) : Option DocumentRow :=
  db.documents.find? (fun d => d.id == document_id)

/-- In-place mutation of the ORM object `get_by_id` returned: since `id` is
the unique primary key, mutating that object is replacing the row with the
matching id. -/
def mapDocument (db : DB) (document_id : Nat) (g : DocumentRow → DocumentRow) : DB :=
  { db with documents := db.documents.map (fun d => if d.id == document_id then g d else d) }

/-- The rows of the `DocumentVersion` relationship / queries filtered on
`document_id`. -/
def versionsOf (db : DB) (document_id : Nat) : List VersionRow :=
  db.versions.filter (fun v => v.document_id == document_id)

/-- `DocumentUpdate` schema (app/schemas/document.py): exactly the fields
`title` and `content`, both required; `model_dump()` yields both keys. -/
structure DocumentUpdate where
  title : String
  content : String

/-- The `DocumentVersion(...)` constructed at lines 82-90 of
app/repositories/document_repository.py: a snapshot of the pre-update row. -/
def snapshotOf (db : DB) (d : DocumentRow) : VersionRow :=
  { document_id := d.id
    version_number := if (versionsOf db d.id).isEmpty then 1 else (versionsOf db d.id).length + 1
    title := d.title
    content := d.content
    file_name := d.file_name
    file_path := d.file_path
    file_size := d.file_size }

/-- `DocumentRepository.update` (lines 73-102).  `db.add(version)` and the
`setattr` loop only stage changes in the session; `db.commit()` applies both
at once.  `commitOk` says whether that commit succeeds; on failure the
`except` clause rolls the session back to the committed state `db` and
re-raises.  A missing document skips the whole block and returns `None`. -/
def DocumentRepository.update (commitOk : Bool) (db : DB) (document_id : Nat)
    (document : DocumentUpdate) : DB × Except PyError (Option DocumentRow) :=
  match getById db document_id with
  | Option.none => (db, .ok Option.none)
  | some db_document =>
    let version := snapshotOf db db_document
    let updated := { db_document with title := document.title, content := document.content }
    if commitOk then
      (mapDocument { db with versions := db.versions ++ [version] } document_id
        (fun d => { d with title := document.title, content := document.content }),
       .ok (some updated))
    else
      (db, .error (.dbError "commit failed"))

/-- Insert a version row into a list ascending by `version_number`
(auxiliary for the `ORDER BY version_number ASC` query). -/
def insertByNum (v : VersionRow) : List VersionRow → List VersionRow
  | [] => [v]
  | w :: ws =>
    if v.version_number ≤ w.version_number then v :: w :: ws else w :: insertByNum v ws

/-- Sort version rows ascending by `version_number` (ties are unspecified by
SQL and do not arise: version numbers are unique per document). -/
def sortByNum : List VersionRow → List VersionRow
  | [] => []
  | v :: vs => insertByNum v (sortByNum vs)

/-- `DocumentRepository.get_versions` (lines 122-125): all versions of the
document, ordered by `version_number` ascending. -/
def get_versions (db : DB) (document_id : Nat) : List VersionRow :=
  sortByNum (versionsOf db document_id)

/-- `DocumentRepository.get_latest_version` (lines 127-130): order by
`version_number` descending, take the first row — the last row of the
ascending order (version numbers are unique per document). -/
def get_latest_version (db : DB) (document_id : Nat) : Option VersionRow :=
  (sortByNum (versionsOf db document_id)).reverse.head?

/-- `DocumentService.update_document_metadata`
(app/services/document_service.py lines 98-119).  `if document_type_id:`
is Python truthiness on `Optional[int]`: `None` and `0` skip the branch.
Validation performs only reads, so an exception it raises leaves the
committed state untouched; afterwards the mutations are committed (the
commit itself is assumed to succeed here, as in the claim). -/
def update_document_metadata (lib : PyLib) (db : DB) (document_id : Nat)
    (document_type_id : Option Nat) (metadata_values : List (String × PyVal)) :
    DB × Except PyError DocumentRow :=
  match getById db document_id with
  | Option.none => (db, .error (.httpException 404 "Document not found"))
  | some document =>
    if document_type_id.getD 0 ≠ 0 then
      match validate_document_metadata lib db (document_type_id.getD 0) metadata_values with
      | .error e => (db, .error e)
      | .ok _ =>
        let updated := { document with
          document_type_id := document_type_id, metadata_values := metadata_values }
        (mapDocument db document_id (fun d => { d with
          document_type_id := document_type_id, metadata_values := metadata_values }),
         .ok updated)
    else
      let updated := { document with metadata_values := metadata_values }
      (mapDocument db document_id (fun d => { d with metadata_values := metadata_values }),
       .ok updated)

/-- Does the association table already hold the (type, field) pair?
(The pair is the composite primary key.) -/
def pairPresent (db : DB) (type_id field_id : Nat) : Bool :=
  db.document_type_metadata.any (fun a =>
    a.document_type_id == type_id && a.metadata_field_id == field_id)

/-- `DocumentTypeRepository.associate_metadata_field`
(app/repositories/metadata_repository.py lines 98-106): a plain INSERT into
`document_type_metadata`.  Inserting an already-present composite primary key
makes the INSERT raise `IntegrityError` and insert nothing (the SQLite
backend enforces primary keys; foreign keys are not enforced by default, so
nonexistent ids do not fail here).  On success the row is committed. -/
def associate_metadata_field (db : DB) (type_id field_id : Nat) (is_required : Bool) :
    DB × Except PyError Unit :=
  if pairPresent db type_id field_id then
    (db, .error (.integrityError "UNIQUE constraint failed: document_type_metadata"))
  else
    ({ db with document_type_metadata :=
        db.document_type_metadata ++ [⟨type_id, field_id, is_required⟩] }, .ok ())

/-- `DocumentTypeRepository.dissociate_metadata_field` (lines 108-117):
DELETE of all rows matching the pair, then commit; deleting nothing is not
an error. -/
def dissociate_metadata_field (db : DB) (type_id field_id : Nat) :
    DB × Except PyError Unit :=
  ({ db with document_type_metadata := db.document_type_metadata.filter (fun a =>
      !(a.document_type_id == type_id && a.metadata_field_id == field_id)) }, .ok ())

/-- `DocumentTypeRepository.clear_metadata_fields` (lines 119-125): DELETE of
every association row of the type, committed immediately. -/
def clear_metadata_fields (db : DB) (type_id : Nat) : DB :=
  { db with document_type_metadata := db.document_type_metadata.filter (fun a =>
      !(a.document_type_id == type_id)) }

/-- The re-association loop of `MetadataService.update_document_type_fields`
(app/services/metadata_service.py lines 152-157): each
`associate_metadata_field` call commits on its own; the first raised error
propagates, leaving the rows committed so far in place. -/
def addAssociations (type_id : Nat) (db : DB) :
    List (Nat × Bool) → DB × Except PyError Unit
  | [] => (db, .ok ())
  | (field_id, is_required) :: rest =>
    match associate_metadata_field db type_id field_id is_required with
    | (db1, .ok _) => addAssociations type_id db1 rest
    | (db1, .error e) => (db1, .error e)

/-- `MetadataService.update_document_type_fields` (lines 142-159): look up
the type, clear its associations (committed), then add the new ones one by
one (each committed); finally return the re-read type. -/
def update_document_type_fields (db : DB) (type_id : Nat)
    (field_associations : List (Nat × Bool)) :
    DB × Except PyError (Option DocumentTypeRow) :=
  match getDocumentType db type_id with
  | Option.none =>
    (db, .error (.valueError ("Document type with id not found")))
  | some _ =>
    let db1 := clear_metadata_fields db type_id
    match addAssociations type_id db1 field_associations with
    | (db2, .ok _) => (db2, .ok (getDocumentType db2 type_id))
    | (db2, .error e) => (db2, .error e)

/-- `LocalFileStorage.delete_file`
(app/storage/implementations/local_storage.py lines 83-103) over a local
filesystem modelled as the list of existing file paths: if the path exists
it is removed and `True` returned; a missing path returns `False` (and an
OS error while removing would also return `False` through the `except`
clause — I/O faults beyond existence are not modelled). -/
def LocalFileStorage.delete_file (fs : List String) (file_path : String) :
    List String × Bool :=
  if fs.contains file_path then (fs.filter (fun p => p ≠ file_path), true)
  else (fs, false)

/-- `S3Storage.delete_file` (app/storage/implementations/s3_storage.py lines
92-110) over a bucket modelled as the list of existing keys: S3
`delete_object` succeeds whether or not the key exists, so the method
returns `True` for a missing key as well (a transport error would return
`False`; such faults are not modelled). -/
def S3Storage.delete_file (bucket : List String) (file_path : String) :
    List String × Bool :=
  (bucket.filter (fun p => p ≠ file_path), true)

/-- `DocumentService.update_document`-level sequence of N successful updates
to one document: fold `DocumentRepository.update` with succeeding commits. -/
def applyUpdates (db : DB) (document_id : Nat) (us : List DocumentUpdate) : DB :=
  us.foldl (fun s u => (DocumentRepository.update true s document_id u).1) db

/-- Association rows of one document type, in table order. -/
def assocsFor (db : DB) (type_id : Nat) : List AssocRow :=
  db.document_type_metadata.filter (fun a => a.document_type_id == type_id)

/-- Specification-side helper: the longest prefix of a replace-associations
request that inserts without a primary-key collision, given the field ids
`seen` already present for the type.  `addAssociations` commits exactly the
rows of this prefix before the first duplicate raises. -/
def cleanPrefixAux (seen : List Nat) : List (Nat × Bool) → List (Nat × Bool)
  | [] => []
  | (field_id, is_required) :: rest =>
    if seen.contains field_id then []
    else (field_id, is_required) :: cleanPrefixAux (field_id :: seen) rest

/-- A `PyLib` fixture for concrete runs; no concrete claim input reaches the
date or JSON branches, so the stub values are never observed. -/
def exLib : PyLib := ⟨fun _ => false, fun _ => some "decode error"⟩

/-- Fixture: the Boolean field of spec Scenario 1. -/
def exConfidential : MetadataField :=
  ⟨1, "confidential", Option.none, .boolean, false, Option.none, Option.none, Option.none⟩

/-- Fixture: the Scenario 1 state — DocumentType "Policy" (id 1) with the
required Boolean field "confidential". -/
def exPolicyDB : DB :=
  { metadata_fields := [exConfidential]
    document_types := [⟨1, "Policy", Option.none⟩]
    document_type_metadata := [⟨1, 1, true⟩]
    documents := []
    versions := [] }

/-- Fixture: a single-valued Integer field. -/
def exCount : MetadataField :=
  ⟨3, "count", Option.none, .integer, false, Option.none, Option.none, Option.none⟩

/-- Fixture: DocumentType id 3 with the single-valued Integer field "count". -/
def exIntDB : DB :=
  { metadata_fields := [exCount]
    document_types := [⟨3, "Counted", Option.none⟩]
    document_type_metadata := [⟨3, 3, false⟩]
    documents := []
    versions := [] }

/-- Fixture: a multi-valued Text field. -/
def exTags : MetadataField :=
  ⟨4, "tags", Option.none, .text, true, Option.none, Option.none, Option.none⟩

/-- Fixture: DocumentType id 4 with the multi-valued Text field "tags". -/
def exTagsDB : DB :=
  { metadata_fields := [exTags]
    document_types := [⟨4, "Tagged", Option.none⟩]
    document_type_metadata := [⟨4, 4, false⟩]
    documents := []
    versions := [] }

/-- Fixture: document 1 has DocumentType 1, and type 1 has no associated
fields, so any metadata key is an unknown field for it. -/
def exEmptyTypeDB : DB :=
  { metadata_fields := []
    document_types := [⟨1, "Empty", Option.none⟩]
    document_type_metadata := []
    documents := [⟨1, "Doc", "", Option.none, Option.none, Option.none, some 1, []⟩]
    versions := [] }

/-- Fixture: a type and a field with no association yet. -/
def exAssocDB : DB :=
  { metadata_fields := [exConfidential]
    document_types := [⟨1, "Policy", Option.none⟩]
    document_type_metadata := []
    documents := []
    versions := [] }

/-- Fixture: the Scenario 2 document — "report.txt", 12 bytes, title
"Report Q1", no versions yet. -/
def exReport : DocumentRow :=
  ⟨7, "Report Q1", "", some "uploads/r.txt", some "report.txt", some 12, Option.none, []⟩

/-- Fixture: database holding only `exReport`. -/
def exDocDB : DB :=
  { metadata_fields := [], document_types := [], document_type_metadata := []
    documents := [exReport], versions := [] }

/-- Fixture: first update payload. -/
def exU1 : DocumentUpdate := ⟨"Report Q1 rev A", "body A"⟩

/-- Fixture: second update payload. -/
def exU2 : DocumentUpdate := ⟨"Report Q1 rev B", "body B"⟩

/-! ## Helper lemmas -/

theorem find?_map_update (l : List DocumentRow) (document_id : Nat)
    (g : DocumentRow → DocumentRow) (hg : ∀ d, (g d).id = d.id)
    (doc : DocumentRow) (h : l.find? (fun d => d.id == document_id) = some doc) :
    (l.map (fun d => if d.id == document_id then g d else d)).find?
      (fun d => d.id == document_id) = some (g doc) := by
  induction l with
  | nil => simp at h
  | cons d ds ih =>
    by_cases hd : (d.id == document_id) = true
    · rw [@List.find?_cons_of_pos _ (fun d => d.id == document_id) d ds hd] at h
      have hdd : d = doc := by injection h
      subst hdd
      rw [List.map_cons, if_pos hd]
      exact @List.find?_cons_of_pos _ (fun d => d.id == document_id) (g d) _
        (by show ((g d).id == document_id) = true; rw [hg d]; exact hd)
    · rw [@List.find?_cons_of_neg _ (fun d => d.id == document_id) d ds hd] at h
      rw [List.map_cons, if_neg hd]
      rw [@List.find?_cons_of_neg _ (fun d => d.id == document_id) d _ hd]
      exact ih h

theorem getById_mapDocument (db : DB) (document_id : Nat) (g : DocumentRow → DocumentRow)
    (hg : ∀ d, (g d).id = d.id) (doc : DocumentRow)
    (h : getById db document_id = some doc) :
    getById (mapDocument db document_id g) document_id = some (g doc) :=
  find?_map_update db.documents document_id g hg doc h

theorem getById_id (db : DB) (document_id : Nat) (doc : DocumentRow)
    (h : getById db document_id = some doc) : doc.id = document_id := by
  have h' : db.documents.find? (fun d => d.id == document_id) = some doc := h
  have hp := List.find?_some h'
  exact eq_of_beq hp

theorem snapshotOf_number (db : DB) (d : DocumentRow) :
    (snapshotOf db d).version_number = (versionsOf db d.id).length + 1 := by
  simp only [snapshotOf]
  cases hE : versionsOf db d.id with
  | nil => simp [hE]
  | cons a l => simp [hE]

theorem update_true_versions (db : DB) (document_id : Nat) (u : DocumentUpdate)
    (doc : DocumentRow) (h : getById db document_id = some doc) :
    (DocumentRepository.update true db document_id u).1.versions
      = db.versions ++ [snapshotOf db doc] := by
  simp [DocumentRepository.update, h, mapDocument]

theorem update_true_versionsOf (db : DB) (document_id : Nat) (u : DocumentUpdate)
    (doc : DocumentRow) (h : getById db document_id = some doc) :
    versionsOf (DocumentRepository.update true db document_id u).1 document_id
      = versionsOf db document_id ++ [snapshotOf db doc] := by
  have hid : doc.id = document_id := getById_id db document_id doc h
  simp [DocumentRepository.update, h, mapDocument, versionsOf, List.filter_append,
    snapshotOf, hid]

theorem update_true_getById (db : DB) (document_id : Nat) (u : DocumentUpdate)
    (doc : DocumentRow) (h : getById db document_id = some doc) :
    getById (DocumentRepository.update true db document_id u).1 document_id
      = some { doc with title := u.title, content := u.content } := by
  have hmain : getById (mapDocument { db with versions := db.versions ++ [snapshotOf db doc] }
      document_id (fun d => { d with title := u.title, content := u.content })) document_id
      = some { doc with title := u.title, content := u.content } :=
    getById_mapDocument { db with versions := db.versions ++ [snapshotOf db doc] }
      document_id (fun d => { d with title := u.title, content := u.content })
      (fun d => rfl) doc h
  simpa [DocumentRepository.update, h] using hmain

theorem update_false_state (db : DB) (document_id : Nat) (u : DocumentUpdate)
    (doc : DocumentRow) (h : getById db document_id = some doc) :
    DocumentRepository.update false db document_id u
      = (db, .error (.dbError "commit failed")) := by
  simp [DocumentRepository.update, h]

theorem sortByNum_of_chain (l : List VersionRow)
    (h : List.Chain' (fun a b => a.version_number ≤ b.version_number) l) :
    sortByNum l = l := by
  induction l with
  | nil => rfl
  | cons v vs ih =>
    cases vs with
    | nil => rfl
    | cons w ws =>
      obtain ⟨hvw, htail⟩ := List.chain'_cons.mp h
      rw [sortByNum, ih htail]
      simp [insertByNum, hvw]

theorem chain'_of_map_range' (l : List VersionRow) :
    ∀ (s k : Nat), l.map (fun v => v.version_number) = List.range' s k →
    List.Chain' (fun a b => a.version_number ≤ b.version_number) l := by
  induction l with
  | nil => intro s k _; exact List.chain'_nil
  | cons v vs ih =>
    intro s k h
    cases k with
    | zero => simp at h
    | succ k' =>
      rw [List.range'_succ] at h
      simp only [List.map_cons, List.cons.injEq] at h
      obtain ⟨hv, hvs⟩ := h
      cases vs with
      | nil => exact List.chain'_singleton v
      | cons w ws =>
        refine List.chain'_cons.mpr ⟨?_, ih (s + 1) k' hvs⟩
        cases k' with
        | zero => simp at hvs
        | succ k'' =>
          rw [List.range'_succ] at hvs
          simp only [List.map_cons, List.cons.injEq] at hvs
          rw [hv, hvs.1]
          omega

theorem applyUpdates_versions (us : List DocumentUpdate) :
    ∀ (db : DB) (document_id : Nat) (doc : DocumentRow) (k : Nat),
    getById db document_id = some doc →
    (versionsOf db document_id).map (fun v => v.version_number) = List.range' 1 k →
    ((versionsOf (applyUpdates db document_id us) document_id).map
        (fun v => v.version_number) = List.range' 1 (k + us.length))
    ∧ ∃ d, getById (applyUpdates db document_id us) document_id = some d := by
  induction us with
  | nil =>
    intro db document_id doc k h hm
    exact ⟨by simpa using hm, ⟨doc, h⟩⟩
  | cons u us ih =>
    intro db document_id doc k h hm
    have hid : doc.id = document_id := getById_id db document_id doc h
    have hlen : (versionsOf db document_id).length = k := by
      have hl := congrArg List.length hm
      simpa using hl
    have hnum : (snapshotOf db doc).version_number = k + 1 := by
      rw [snapshotOf_number, hid, hlen]
    have hm1 : (versionsOf (DocumentRepository.update true db document_id u).1
        document_id).map (fun v => v.version_number) = List.range' 1 (k + 1) := by
      rw [update_true_versionsOf db document_id u doc h, List.map_append, hm]
      simp only [List.map_cons, List.map_nil, hnum]
      rw [List.range'_concat]
      simp only [one_mul]
      rw [Nat.add_comm 1 k]
    have hstep : applyUpdates db document_id (u :: us)
        = applyUpdates (DocumentRepository.update true db document_id u).1 document_id us := rfl
    have h1 := update_true_getById db document_id u doc h
    obtain ⟨hmap, hex⟩ := ih (DocumentRepository.update true db document_id u).1 document_id
      { doc with title := u.title, content := u.content } (k + 1) h1 hm1
    rw [hstep]
    refine ⟨?_, hex⟩
    rw [hmap]
    have harith : k + 1 + us.length = k + (u :: us).length := by
      simp [List.length_cons]
      omega
    rw [harith]

/-! ## Claim theorems -/

/-- C1 (code_bug): the spec's Scenario 1 — DocumentType "Policy" with the
required Boolean field "confidential" — cannot behave as specified:
`validate_document_metadata` evaluates `doc_type.metadata_fields_association`,
an attribute the `DocumentType` model does not define, so both
`validate(Policy, empty)` (specified to fail with missing-required-field) and
`validate(Policy, confidential mapped to true)` (specified to succeed) raise
`AttributeError` instead. -/
theorem validate_policy_scenario_crashes :
    validate_document_metadata exLib exPolicyDB 1 [] = .error (.attributeError attrErrMsg)
    ∧ validate_document_metadata exLib exPolicyDB 1 [("confidential", PyVal.bool true)]
        = .error (.attributeError attrErrMsg) := ⟨rfl, rfl⟩

/-- C7 (confirmed): `dissociate_metadata_field` is idempotent — the first
call succeeds, and a second call for the same (type, field) pair succeeds
too and leaves the association table exactly as after the first call. -/
theorem dissociate_metadata_field_idempotent (db : DB) (t f : Nat) :
    (dissociate_metadata_field db t f).2 = .ok ()
    ∧ dissociate_metadata_field (dissociate_metadata_field db t f).1 t f
        = ((dissociate_metadata_field db t f).1, .ok ()) := by
  refine ⟨rfl, ?_⟩
  have hff : (db.document_type_metadata.filter (fun a =>
        !(a.document_type_id == t && a.metadata_field_id == f))).filter (fun a =>
        !(a.document_type_id == t && a.metadata_field_id == f))
      = db.document_type_metadata.filter (fun a =>
        !(a.document_type_id == t && a.metadata_field_id == f)) := by
    rw [List.filter_filter]
    exact List.filter_congr (fun a _ => Bool.and_self _)
  simp only [dissociate_metadata_field]
  rw [hff]

/-- C8 (confirmed): for a handle that does not resolve, the local-filesystem
delete returns the distinguishable not-found flag `false` and leaves the
filesystem unchanged, while the object-store delete reports success `true`
for the missing key and leaves the bucket unchanged. -/
theorem delete_file_missing_asymmetry (fs bucket : List String) (p : String)
    (h1 : p ∉ fs) (h2 : p ∉ bucket) :
    LocalFileStorage.delete_file fs p = (fs, false)
    ∧ S3Storage.delete_file bucket p = (bucket, true) := by
  constructor
  · have hc : fs.contains p = false := by simpa using h1
    simp only [LocalFileStorage.delete_file, hc]
    simp
  · have hf : bucket.filter (fun q => q ≠ p) = bucket :=
      List.filter_eq_self.mpr (by
        intro a ha
        simp only [ne_eq, decide_eq_true_eq]
        intro he
        exact h2 (he ▸ ha))
    simp only [S3Storage.delete_file]
    exact congrArg (fun l => (l, true)) hf

/-- C8 witness: concrete one-file filesystem and one-key bucket, missing
path "b.txt". -/
theorem delete_file_missing_asymmetry_witness :
    ("b.txt" ∉ ["a.txt"]) ∧ ("b.txt" ∉ ["k1"])
    ∧ LocalFileStorage.delete_file ["a.txt"] "b.txt" = (["a.txt"], false)
    ∧ S3Storage.delete_file ["k1"] "b.txt" = (["k1"], true) := by
  have h1 : "b.txt" ∉ ["a.txt"] := by simp
  have h2 : "b.txt" ∉ ["k1"] := by simp
  obtain ⟨w1, w2⟩ := delete_file_missing_asymmetry ["a.txt"] ["k1"] "b.txt" h1 h2
  exact ⟨h1, h2, w1, w2⟩

/-- C2 (confirmed): after N successful updates to a document that starts
with no versions, `get_versions` returns exactly N entries whose
version_number values are the gap-free ascending sequence 1..N, and
`get_latest_version` returns the entry numbered N (none when N = 0). -/
theorem get_versions_after_updates (db : DB) (document_id : Nat) (doc : DocumentRow)
    (us : List DocumentUpdate)
    (h1 : getById db document_id = some doc)
    (h2 : versionsOf db document_id = []) :
    ((get_versions (applyUpdates db document_id us) document_id).map
        (fun v => v.version_number) = List.range' 1 us.length)
    ∧ ((get_latest_version (applyUpdates db document_id us) document_id).map
        (fun v => v.version_number)
       = if us.length = 0 then Option.none else some us.length) := by
  have hm0 : (versionsOf db document_id).map (fun v => v.version_number)
      = List.range' 1 0 := by simp [h2]
  obtain ⟨hmap, _⟩ := applyUpdates_versions us db document_id doc 0 h1 hm0
  rw [Nat.zero_add] at hmap
  have hsort : sortByNum (versionsOf (applyUpdates db document_id us) document_id)
      = versionsOf (applyUpdates db document_id us) document_id :=
    sortByNum_of_chain _ (chain'_of_map_range' _ 1 us.length hmap)
  constructor
  · rw [get_versions, hsort, hmap]
  · rw [get_latest_version, hsort]
    have hcomm : ((versionsOf (applyUpdates db document_id us) document_id).reverse.head?).map
        (fun v => v.version_number)
        = (((versionsOf (applyUpdates db document_id us) document_id).map
            (fun v => v.version_number)).reverse).head? := by
      rw [← List.map_reverse, List.head?_map]
    rw [hcomm, hmap]
    cases hn : us.length with
    | zero => simp
    | succ n =>
      rw [List.head?_reverse, List.range'_concat, List.getLast?_concat]
      have h1n : 1 + 1 * n = n + 1 := by omega
      rw [h1n]
      simp

/-- C2 witness: Scenario 2's document updated twice yields versions [1, 2]
and latest version 2. -/
theorem get_versions_after_updates_witness :
    getById exDocDB 7 = some exReport ∧ versionsOf exDocDB 7 = []
    ∧ (((get_versions (applyUpdates exDocDB 7 [exU1, exU2]) 7).map
          (fun v => v.version_number) = List.range' 1 2)
       ∧ ((get_latest_version (applyUpdates exDocDB 7 [exU1, exU2]) 7).map
          (fun v => v.version_number) = if (2 : Nat) = 0 then Option.none else some 2)) :=
  ⟨rfl, rfl, get_versions_after_updates exDocDB 7 exReport [exU1, exU2] rfl rfl⟩

/-- C3 (confirmed): on update of an existing document, the recorded snapshot
carries the pre-update title, content, file name, file path and file size
with version_number = current version count + 1; on a successful commit the
snapshot is appended and the live document mutated, and on a failed commit
the state is returned unchanged (no snapshot, no mutation) with the error
re-raised — both-or-neither. -/
theorem update_snapshots_then_mutates (db : DB) (document_id : Nat)
    (u : DocumentUpdate) (doc : DocumentRow)
    (h : getById db document_id = some doc) :
    ((snapshotOf db doc).title = doc.title
     ∧ (snapshotOf db doc).content = doc.content
     ∧ (snapshotOf db doc).file_name = doc.file_name
     ∧ (snapshotOf db doc).file_path = doc.file_path
     ∧ (snapshotOf db doc).file_size = doc.file_size
     ∧ (snapshotOf db doc).version_number = (versionsOf db doc.id).length + 1)
    ∧ (DocumentRepository.update true db document_id u).1.versions
        = db.versions ++ [snapshotOf db doc]
    ∧ getById (DocumentRepository.update true db document_id u).1 document_id
        = some { doc with title := u.title, content := u.content }
    ∧ (DocumentRepository.update false db document_id u).1 = db
    ∧ (DocumentRepository.update false db document_id u).2
        = .error (.dbError "commit failed") := by
  refine ⟨⟨rfl, rfl, rfl, rfl, rfl, snapshotOf_number db doc⟩,
    update_true_versions db document_id u doc h,
    update_true_getById db document_id u doc h, ?_, ?_⟩
  · rw [update_false_state db document_id u doc h]
  · rw [update_false_state db document_id u doc h]

/-- C3 witness: updating the Scenario 2 document once snapshots
("Report Q1", "report.txt", 12 bytes) as version 1 and mutates the title. -/
theorem update_snapshots_then_mutates_witness :
    getById exDocDB 7 = some exReport
    ∧ (((snapshotOf exDocDB exReport).title = exReport.title
        ∧ (snapshotOf exDocDB exReport).content = exReport.content
        ∧ (snapshotOf exDocDB exReport).file_name = exReport.file_name
        ∧ (snapshotOf exDocDB exReport).file_path = exReport.file_path
        ∧ (snapshotOf exDocDB exReport).file_size = exReport.file_size
        ∧ (snapshotOf exDocDB exReport).version_number
            = (versionsOf exDocDB exReport.id).length + 1)
       ∧ (DocumentRepository.update true exDocDB 7 exU1).1.versions
           = exDocDB.versions ++ [snapshotOf exDocDB exReport]
       ∧ getById (DocumentRepository.update true exDocDB 7 exU1).1 7
           = some { exReport with title := exU1.title, content := exU1.content }
       ∧ (DocumentRepository.update false exDocDB 7 exU1).1 = exDocDB
       ∧ (DocumentRepository.update false exDocDB 7 exU1).2
           = .error (.dbError "commit failed")) :=
  ⟨rfl, update_snapshots_then_mutates exDocDB 7 exU1 exReport rfl⟩

/-- C4 counterexample: the claim says every `update_metadata` call
re-validates the supplied metadata against the document type's schema before
committing.  Concretely: document 1 has DocumentType 1; the map with key "x"
fails validation against type 1 ("Unknown metadata field: x"); yet the call
with `document_type_id = None` succeeds and commits that map unvalidated. -/
theorem update_metadata_skips_validation_cex :
    validate_document_metadata exLib exEmptyTypeDB 1 [("x", PyVal.int 5)]
      = .error (.metadataValidationError "Unknown metadata field: x")
    ∧ (update_document_metadata exLib exEmptyTypeDB 1 Option.none [("x", PyVal.int 5)]).2
      = .ok ⟨1, "Doc", "", Option.none, Option.none, Option.none, some 1,
             [("x", PyVal.int 5)]⟩
    ∧ getById (update_document_metadata exLib exEmptyTypeDB 1 Option.none
        [("x", PyVal.int 5)]).1 1
      = some ⟨1, "Doc", "", Option.none, Option.none, Option.none, some 1,
              [("x", PyVal.int 5)]⟩ :=
  ⟨rfl, rfl, rfl⟩

/-- C4 (amended): `update_document_metadata` fails with NotFound (HTTP 404)
and leaves the state unchanged when the document does not exist; when the
document exists and a non-zero `document_type_id` is supplied, it validates
the supplied metadata against that (new) type first — a validation error is
propagated with the state unchanged, and on success the document's
document_type_id and metadata map are both committed; when
`document_type_id` is absent (or 0), the metadata map is committed without
any validation and the document's type is left as it was. -/
theorem update_metadata_behavior (lib : PyLib) (db : DB) (document_id : Nat)
    (document_type_id : Option Nat) (metadata_values : List (String × PyVal)) :
    (getById db document_id = Option.none →
      update_document_metadata lib db document_id document_type_id metadata_values
        = (db, .error (.httpException 404 "Document not found")))
    ∧ (∀ doc, getById db document_id = some doc → document_type_id.getD 0 = 0 →
        (update_document_metadata lib db document_id document_type_id metadata_values).2
          = .ok { doc with metadata_values := metadata_values }
        ∧ getById (update_document_metadata lib db document_id document_type_id
            metadata_values).1 document_id
          = some { doc with metadata_values := metadata_values })
    ∧ (∀ doc t, getById db document_id = some doc → document_type_id = some t → t ≠ 0 →
        (∀ e, validate_document_metadata lib db t metadata_values = .error e →
          update_document_metadata lib db document_id document_type_id metadata_values
            = (db, .error e))
        ∧ (∀ ok, validate_document_metadata lib db t metadata_values = .ok ok →
          (update_document_metadata lib db document_id document_type_id
              metadata_values).2
            = .ok { doc with document_type_id := some t, metadata_values := metadata_values }
          ∧ getById (update_document_metadata lib db document_id document_type_id
              metadata_values).1 document_id
            = some { doc with document_type_id := some t, metadata_values := metadata_values })) := by
  refine ⟨?_, ?_, ?_⟩
  · intro h
    simp [update_document_metadata, h]
  · intro doc h h0
    have hmap := getById_mapDocument db document_id
      (fun d => { d with metadata_values := metadata_values }) (fun d => rfl) doc h
    constructor
    · simp [update_document_metadata, h, h0]
    · simpa [update_document_metadata, h, h0] using hmap
  · intro doc t h ht hne
    subst ht
    have hgd : (some t).getD 0 = t := rfl
    constructor
    · intro e hval
      simp [update_document_metadata, h, hgd, hne, hval]
    · intro ok hval
      have hmap := getById_mapDocument db document_id
        (fun d => { d with document_type_id := some t, metadata_values := metadata_values })
        (fun d => rfl) doc h
      constructor
      · simp [update_document_metadata, h, hgd, hne, hval]
      · simpa [update_document_metadata, h, hgd, hne, hval] using hmap

/-- C4 witness: with no type supplied, the metadata of document 1 is
replaced and committed. -/
theorem update_metadata_behavior_witness :
    getById exEmptyTypeDB 1
      = some ⟨1, "Doc", "", Option.none, Option.none, Option.none, some 1, []⟩
    ∧ (Option.none : Option Nat).getD 0 = 0
    ∧ ((update_document_metadata exLib exEmptyTypeDB 1 Option.none
          [("y", PyVal.str "v")]).2
        = .ok ⟨1, "Doc", "", Option.none, Option.none, Option.none, some 1,
               [("y", PyVal.str "v")]⟩
       ∧ getById (update_document_metadata exLib exEmptyTypeDB 1 Option.none
            [("y", PyVal.str "v")]).1 1
        = some ⟨1, "Doc", "", Option.none, Option.none, Option.none, some 1,
                [("y", PyVal.str "v")]⟩) :=
  ⟨rfl, rfl,
    (update_metadata_behavior exLib exEmptyTypeDB 1 Option.none
      [("y", PyVal.str "v")]).2.1
      ⟨1, "Doc", "", Option.none, Option.none, Option.none, some 1, []⟩ rfl rfl⟩

theorem pairPresent_clear (db : DB) (t f : Nat) :
    pairPresent (clear_metadata_fields db t) t f = false := by
  simp only [pairPresent, clear_metadata_fields]
  induction db.document_type_metadata with
  | nil => rfl
  | cons a L ih =>
    by_cases ha : (a.document_type_id == t) = true
    · simpa [List.filter_cons, ha] using ih
    · simpa [List.filter_cons, ha] using ih

theorem addAssociations_spec (t : Nat) (l : List (Nat × Bool)) :
    ∀ (db : DB) (seen : List Nat),
    (∀ f, pairPresent db t f = seen.contains f) →
    ((addAssociations t db l).1.document_type_metadata
       = db.document_type_metadata
         ++ (cleanPrefixAux seen l).map (fun p => (⟨t, p.1, p.2⟩ : AssocRow)))
    ∧ ((cleanPrefixAux seen l = l ∧ (addAssociations t db l).2 = .ok ())
       ∨ (cleanPrefixAux seen l ≠ l ∧ (addAssociations t db l).2
           = .error (.integrityError "UNIQUE constraint failed: document_type_metadata"))) := by
  induction l with
  | nil =>
    intro db seen hinv
    exact ⟨by simp [addAssociations, cleanPrefixAux], Or.inl ⟨rfl, rfl⟩⟩
  | cons p rest ih =>
    obtain ⟨f, r⟩ := p
    intro db seen hinv
    by_cases hc : seen.contains f = true
    · have hp : pairPresent db t f = true := by rw [hinv f]; exact hc
      have hfm : f ∈ seen := by simpa using hc
      have hstop : cleanPrefixAux seen ((f, r) :: rest) = [] := by
        simp [cleanPrefixAux, hfm]
      refine ⟨?_, Or.inr ⟨?_, ?_⟩⟩
      · simp [addAssociations, associate_metadata_field, hp, hstop]
      · rw [hstop]; exact fun hcon => List.noConfusion hcon
      · simp [addAssociations, associate_metadata_field, hp]
    · have hcf : seen.contains f = false := by simpa using hc
      have hp : pairPresent db t f = false := by rw [hinv f]; exact hcf
      have hstep : addAssociations t db ((f, r) :: rest)
          = addAssociations t
              { db with document_type_metadata :=
                  db.document_type_metadata ++ [⟨t, f, r⟩] } rest := by
        simp [addAssociations, associate_metadata_field, hp]
      have hfn : f ∉ seen := by simpa using hc
      have hclean : cleanPrefixAux seen ((f, r) :: rest)
          = (f, r) :: cleanPrefixAux (f :: seen) rest := by
        simp [cleanPrefixAux, hfn]
      have hinv1 : ∀ f', pairPresent
          { db with document_type_metadata := db.document_type_metadata ++ [⟨t, f, r⟩] } t f'
          = (f :: seen).contains f' := by
        intro f'
        have hx : pairPresent { db with document_type_metadata :=
            db.document_type_metadata ++ [⟨t, f, r⟩] } t f'
            = (pairPresent db t f' || (f == f')) := by
          simp [pairPresent, List.any_append]
        have hbeq : (f == f') = (f' == f) := by
          by_cases hff : f = f'
          · rw [hff]
          · have e1 : (f == f') = false := by simpa using hff
            have e2 : (f' == f) = false := by simpa using (Ne.symm hff)
            rw [e1, e2]
        rw [hx, hinv f', List.contains_cons, hbeq, Bool.or_comm]
      obtain ⟨hrows, hok⟩ := ih { db with document_type_metadata :=
          db.document_type_metadata ++ [⟨t, f, r⟩] } (f :: seen) hinv1
      refine ⟨?_, ?_⟩
      · rw [hstep, hrows, hclean]
        simp [List.append_assoc]
      · rcases hok with ⟨hcl, hres⟩ | ⟨hcl, hres⟩
        · exact Or.inl ⟨by rw [hclean, hcl], by rw [hstep]; exact hres⟩
        · refine Or.inr ⟨?_, by rw [hstep]; exact hres⟩
          rw [hclean]
          intro hcon
          injection hcon with h1 h2
          exact hcl h2

theorem cleanPrefixAux_eq_self (l : List (Nat × Bool)) :
    ∀ (seen : List Nat), cleanPrefixAux seen l = l
      ↔ ((l.map Prod.fst).Nodup ∧ ∀ f ∈ l.map Prod.fst, f ∉ seen) := by
  induction l with
  | nil => intro seen; simp [cleanPrefixAux]
  | cons p rest ih =>
    obtain ⟨f, r⟩ := p
    intro seen
    by_cases hc : seen.contains f = true
    · have hf : f ∈ seen := by simpa using hc
      simp only [cleanPrefixAux, hc, if_true]
      constructor
      · intro hcon; exact absurd hcon (fun hcon => List.noConfusion hcon)
      · rintro ⟨-, hall⟩
        exact absurd hf (hall f (by simp))
    · have hcf : f ∉ seen := by simpa using hc
      have hskip : cleanPrefixAux seen ((f, r) :: rest)
          = (f, r) :: cleanPrefixAux (f :: seen) rest := by
        simp [cleanPrefixAux, hcf]
      rw [hskip]
      simp only [List.cons.injEq, true_and]
      rw [ih (f :: seen)]
      constructor
      · rintro ⟨hnd, hall⟩
        refine ⟨?_, ?_⟩
        · rw [List.map_cons]
          exact List.nodup_cons.mpr
            ⟨fun hfin => (hall f hfin) (List.mem_cons_self f seen), hnd⟩
        · intro x hx
          rw [List.map_cons] at hx
          rcases List.mem_cons.mp hx with hxf | hxr
          · rw [hxf]; exact hcf
          · exact fun hmem => (hall x hxr) (List.mem_cons.mpr (Or.inr hmem))
      · rintro ⟨hnd, hall⟩
        rw [List.map_cons] at hnd hall
        obtain ⟨hfnotin, hnd2⟩ := List.nodup_cons.mp hnd
        refine ⟨hnd2, ?_⟩
        intro x hx hmem
        rcases List.mem_cons.mp hmem with hxf | hxs
        · rw [hxf] at hx
          exact hfnotin hx
        · exact (hall x (List.mem_cons.mpr (Or.inr hx))) hxs

theorem filter_t_of_filter_not_t (L : List AssocRow) (t : Nat) :
    (L.filter (fun a => !(a.document_type_id == t))).filter
      (fun a => a.document_type_id == t) = [] := by
  induction L with
  | nil => rfl
  | cons a L ih =>
    by_cases ha : (a.document_type_id == t) = true
    · simp [List.filter_cons, ha, ih]
    · simp [List.filter_cons, ha, ih]

theorem filter_ne_of_filter_not_t (L : List AssocRow) (t t' : Nat) (h : t' ≠ t) :
    (L.filter (fun a => !(a.document_type_id == t))).filter
      (fun a => a.document_type_id == t')
      = L.filter (fun a => a.document_type_id == t') := by
  induction L with
  | nil => rfl
  | cons a L ih =>
    by_cases ha : (a.document_type_id == t) = true
    · have haeq : a.document_type_id = t := eq_of_beq ha
      have ha' : (a.document_type_id == t') = false := by
        rw [haeq]
        simpa using (Ne.symm h)
      simp [List.filter_cons, ha, ha', ih]
    · simp [List.filter_cons, ha, ih]

theorem filter_map_rows_self (t : Nat) (l : List (Nat × Bool)) :
    ((l.map (fun p => (⟨t, p.1, p.2⟩ : AssocRow))).filter
      (fun a => a.document_type_id == t))
      = l.map (fun p => (⟨t, p.1, p.2⟩ : AssocRow)) := by
  apply List.filter_eq_self.mpr
  intro a ha
  obtain ⟨p, hp, rfl⟩ := List.mem_map.mp ha
  simp

theorem filter_map_rows_ne (t t' : Nat) (l : List (Nat × Bool)) (h : t' ≠ t) :
    ((l.map (fun p => (⟨t, p.1, p.2⟩ : AssocRow))).filter
      (fun a => a.document_type_id == t')) = [] := by
  rw [List.filter_eq_nil_iff]
  intro a ha
  obtain ⟨p, hp, rfl⟩ := List.mem_map.mp ha
  simpa using (Ne.symm h)

/-- C5 counterexample: the claim says a failing replace-associations leaves
the association set as it was.  Concretely: type 1 starts with association
set [(field 1, required)]; replacing with [(2, false), (2, true)] fails on
the duplicated field 2 (composite primary-key violation), yet afterwards the
type's association set is [(field 2, optional)] — cleared and partially
re-populated, not the original set. -/
theorem replace_associations_not_atomic_cex :
    (update_document_type_fields exPolicyDB 1 [(2, false), (2, true)]).2
      = .error (.integrityError "UNIQUE constraint failed: document_type_metadata")
    ∧ assocsFor (update_document_type_fields exPolicyDB 1 [(2, false), (2, true)]).1 1
      = [⟨1, 2, false⟩]
    ∧ assocsFor exPolicyDB 1 = [⟨1, 1, true⟩] :=
  ⟨rfl, rfl, rfl⟩

/-- C5 (amended): replace-all-associations clears the type's association
rows (committed at once) and re-adds the requested list one insert-plus-
commit at a time.  Other types' associations are never touched.  When the
requested field ids are pairwise distinct the operation succeeds and the
type's association set afterwards is exactly the requested list in order;
the operation is not atomic: a duplicated field id makes a later insert
raise, leaving the clear and the earlier adds committed (the rows of the
longest collision-free prefix), with no rollback to the pre-call set. -/
theorem replace_associations_behavior (db : DB) (type_id : Nat)
    (l : List (Nat × Bool)) (dt : DocumentTypeRow)
    (h : getDocumentType db type_id = some dt) :
    ((update_document_type_fields db type_id l).1.document_type_metadata
       = db.document_type_metadata.filter (fun a => !(a.document_type_id == type_id))
         ++ (cleanPrefixAux [] l).map (fun p => (⟨type_id, p.1, p.2⟩ : AssocRow)))
    ∧ (assocsFor (update_document_type_fields db type_id l).1 type_id
       = (cleanPrefixAux [] l).map (fun p => (⟨type_id, p.1, p.2⟩ : AssocRow)))
    ∧ (∀ t', t' ≠ type_id →
        assocsFor (update_document_type_fields db type_id l).1 t' = assocsFor db t')
    ∧ ((l.map Prod.fst).Nodup →
        cleanPrefixAux [] l = l
        ∧ ∃ v, (update_document_type_fields db type_id l).2 = .ok v)
    ∧ (¬ (l.map Prod.fst).Nodup →
        (update_document_type_fields db type_id l).2
          = .error (.integrityError "UNIQUE constraint failed: document_type_metadata")) := by
  have hinv : ∀ f, pairPresent (clear_metadata_fields db type_id) type_id f
      = ([] : List Nat).contains f := by
    intro f
    rw [pairPresent_clear]
    rfl
  obtain ⟨hrows, hok⟩ :=
    addAssociations_spec type_id l (clear_metadata_fields db type_id) [] hinv
  have hfst : (update_document_type_fields db type_id l).1
      = (addAssociations type_id (clear_metadata_fields db type_id) l).1 := by
    simp only [update_document_type_fields, h]
    rcases haa : addAssociations type_id (clear_metadata_fields db type_id) l with ⟨db2, res⟩
    cases res <;> simp
  have hres_ok : (addAssociations type_id (clear_metadata_fields db type_id) l).2 = .ok ()
      → ∃ v, (update_document_type_fields db type_id l).2 = .ok v := by
    intro hresult
    rcases haa : addAssociations type_id (clear_metadata_fields db type_id) l with ⟨db2, res⟩
    rw [haa] at hresult
    cases res with
    | ok u =>
      exact ⟨getDocumentType db2 type_id, by simp [update_document_type_fields, h, haa]⟩
    | error e => exact absurd hresult (by simp)
  have hres_err : ∀ e,
      (addAssociations type_id (clear_metadata_fields db type_id) l).2 = .error e
      → (update_document_type_fields db type_id l).2 = .error e := by
    intro e hresult
    rcases haa : addAssociations type_id (clear_metadata_fields db type_id) l with ⟨db2, res⟩
    rw [haa] at hresult
    cases res with
    | ok u => exact absurd hresult (by simp)
    | error e2 =>
      have he : e2 = e := by injection hresult
      subst he
      simp [update_document_type_fields, h, haa]
  have hclean_iff : cleanPrefixAux [] l = l ↔ (l.map Prod.fst).Nodup := by
    rw [cleanPrefixAux_eq_self l []]
    constructor
    · exact fun hh => hh.1
    · exact fun hh => ⟨hh, fun f _ hmem => List.not_mem_nil f hmem⟩
  have hrows1 : (update_document_type_fields db type_id l).1.document_type_metadata
      = db.document_type_metadata.filter (fun a => !(a.document_type_id == type_id))
        ++ (cleanPrefixAux [] l).map (fun p => (⟨type_id, p.1, p.2⟩ : AssocRow)) := by
    rw [hfst]
    exact hrows
  refine ⟨hrows1, ?_, ?_, ?_, ?_⟩
  · show (update_document_type_fields db type_id l).1.document_type_metadata.filter
        (fun a => a.document_type_id == type_id) = _
    rw [hrows1, List.filter_append, filter_t_of_filter_not_t,
      filter_map_rows_self, List.nil_append]
  · intro t' ht'
    show (update_document_type_fields db type_id l).1.document_type_metadata.filter
        (fun a => a.document_type_id == t') = _
    rw [hrows1, List.filter_append, filter_ne_of_filter_not_t _ _ _ ht',
      filter_map_rows_ne _ _ _ ht', List.append_nil]
    rfl
  · intro hnd
    have hcl : cleanPrefixAux [] l = l := hclean_iff.mpr hnd
    refine ⟨hcl, ?_⟩
    rcases hok with ⟨-, hres⟩ | ⟨hne, -⟩
    · exact hres_ok hres
    · exact absurd hcl hne
  · intro hnd
    rcases hok with ⟨hcl, -⟩ | ⟨-, hres⟩
    · exact absurd (hclean_iff.mp hcl) hnd
    · exact hres_err _ hres

/-- C5 witness: replacing type 1's associations with the duplicate-free list
[(2, false), (3, true)] succeeds and installs exactly that set. -/
theorem replace_associations_behavior_witness :
    getDocumentType exPolicyDB 1 = some ⟨1, "Policy", Option.none⟩
    ∧ (([(2, false), (3, true)].map Prod.fst).Nodup)
    ∧ (cleanPrefixAux [] [(2, false), (3, true)] = [(2, false), (3, true)]
       ∧ ∃ v, (update_document_type_fields exPolicyDB 1 [(2, false), (3, true)]).2
           = .ok v)
    ∧ assocsFor (update_document_type_fields exPolicyDB 1 [(2, false), (3, true)]).1 1
        = [⟨1, 2, false⟩, ⟨1, 3, true⟩] :=
  ⟨rfl, by decide,
   (replace_associations_behavior exPolicyDB 1 [(2, false), (3, true)]
      ⟨1, "Policy", Option.none⟩ rfl).2.2.2.1 (by decide),
   (replace_associations_behavior exPolicyDB 1 [(2, false), (3, true)]
      ⟨1, "Policy", Option.none⟩ rfl).2.1⟩

/-- C6 counterexample: the claim says a second associate call for the same
(type, field) pair is a no-op, not an error.  Concretely, after associating
field 1 with type 1, a second call raises IntegrityError (composite
primary-key violation) instead of completing silently. -/
theorem associate_twice_errors_cex :
    (associate_metadata_field exAssocDB 1 1 true).2 = .ok ()
    ∧ (associate_metadata_field (associate_metadata_field exAssocDB 1 1 true).1 1 1 true).2
      = .error (.integrityError "UNIQUE constraint failed: document_type_metadata") :=
  ⟨rfl, rfl⟩

/-- C6 (amended): `associate_metadata_field` on a pair not yet present
inserts exactly one association row; a second call for the same pair raises
IntegrityError — the (document_type_id, metadata_field_id) composite primary
key rejects the duplicate — and leaves the association table unchanged, so
no duplicate is created but the call is an error rather than a no-op. -/
theorem associate_metadata_field_duplicate (db : DB) (t f : Nat) (r1 r2 : Bool)
    (h : pairPresent db t f = false) :
    (associate_metadata_field db t f r1).2 = .ok ()
    ∧ (associate_metadata_field db t f r1).1.document_type_metadata
        = db.document_type_metadata ++ [⟨t, f, r1⟩]
    ∧ associate_metadata_field (associate_metadata_field db t f r1).1 t f r2
        = ((associate_metadata_field db t f r1).1,
           .error (.integrityError "UNIQUE constraint failed: document_type_metadata")) := by
  have h2 : pairPresent
      { db with document_type_metadata := db.document_type_metadata ++ [⟨t, f, r1⟩] } t f
      = true := by
    simp [pairPresent, List.any_append]
  refine ⟨by simp [associate_metadata_field, h],
    by simp [associate_metadata_field, h], ?_⟩
  simp [associate_metadata_field, h, h2]

/-- C6 witness: associating field 1 with type 1 once succeeds and adds the
row; the repeated call errors without changing the table. -/
theorem associate_metadata_field_duplicate_witness :
    pairPresent exAssocDB 1 1 = false
    ∧ ((associate_metadata_field exAssocDB 1 1 true).2 = .ok ()
       ∧ (associate_metadata_field exAssocDB 1 1 true).1.document_type_metadata
           = exAssocDB.document_type_metadata ++ [⟨1, 1, true⟩]
       ∧ associate_metadata_field (associate_metadata_field exAssocDB 1 1 true).1 1 1 false
           = ((associate_metadata_field exAssocDB 1 1 true).1,
              .error (.integrityError "UNIQUE constraint failed: document_type_metadata"))) :=
  ⟨rfl, associate_metadata_field_duplicate exAssocDB 1 1 true false rfl⟩

/-- Shared helper: whenever the resolved document type has at least one
associated metadata field, the required-fields loop of
`validate_document_metadata` raises `AttributeError` (the undefined
`metadata_fields_association` attribute), regardless of the metadata map. -/
theorem validate_crashes_of_fields_nonempty (lib : PyLib) (db : DB) (type_id : Nat)
    (dt : DocumentTypeRow) (mv : List (String × PyVal))
    (h : getDocumentType db type_id = some dt)
    (hne : typeMetadataFields db dt.id ≠ []) :
    validate_document_metadata lib db type_id mv = .error (.attributeError attrErrMsg) := by
  cases hF : typeMetadataFields db dt.id with
  | nil => exact absurd hF hne
  | cons a L =>
    simp [validate_document_metadata, h, hF, requiredFieldsLoop]

/-- C9 counterexample: the claim says `validate` succeeds on a metadata map
supplying a boolean for an Integer-typed field.  The per-field check does
accept the boolean, but document-level validate on the type holding the
Integer field "count" raises AttributeError (undefined
`metadata_fields_association`) instead of succeeding. -/
theorem integer_bool_validate_crashes_cex :
    validate_metadata_value exLib exCount (PyVal.bool true) = .ok ()
    ∧ validate_document_metadata exLib exIntDB 3 [("count", PyVal.bool true)]
        = .error (.attributeError attrErrMsg) :=
  ⟨rfl, rfl⟩

/-- C9 (amended): for a single-valued Integer field (with no validation
rules), the per-field value check accepts the booleans true and false —
Python's bool is a subclass of int, so `isinstance(value, int)` holds — and
the provided-values loop passes a boolean supplied under the field's name;
document-level validate nonetheless cannot succeed for any type having at
least one associated field, because its required-fields loop raises
AttributeError first. -/
theorem integer_field_accepts_bool (lib : PyLib) (f : MetadataField) (b : Bool)
    (db : DB) (type_id : Nat) (dt : DocumentTypeRow) (mv : List (String × PyVal))
    (ht : f.field_type = .integer) (hr : f.validation_rules = Option.none)
    (hm : f.is_multi_valued = false)
    (hdt : getDocumentType db type_id = some dt)
    (hne : typeMetadataFields db dt.id ≠ []) :
    validate_metadata_value lib f (PyVal.bool b) = .ok ()
    ∧ validateValues lib [f] [(f.name, PyVal.bool b)] = .ok ()
    ∧ validate_document_metadata lib db type_id mv = .error (.attributeError attrErrMsg) := by
  have h1 : validate_metadata_value lib f (PyVal.bool b) = .ok () := by
    simp [validate_metadata_value, ht, hr, isinstInt]
  exact ⟨h1, by simp [validateValues, hm, h1],
    validate_crashes_of_fields_nonempty lib db type_id dt mv hdt hne⟩

/-- C9 witness: the Integer field "count" accepts the boolean true, and
validate on its document type crashes. -/
theorem integer_field_accepts_bool_witness :
    exCount.field_type = MetadataType.integer
    ∧ exCount.validation_rules = Option.none
    ∧ exCount.is_multi_valued = false
    ∧ getDocumentType exIntDB 3 = some ⟨3, "Counted", Option.none⟩
    ∧ typeMetadataFields exIntDB 3 ≠ []
    ∧ (validate_metadata_value exLib exCount (PyVal.bool true) = .ok ()
       ∧ validateValues exLib [exCount] [(exCount.name, PyVal.bool true)] = .ok ()
       ∧ validate_document_metadata exLib exIntDB 3 [("count", PyVal.bool true)]
           = .error (.attributeError attrErrMsg)) :=
  ⟨rfl, rfl, rfl, rfl, fun hcon => List.noConfusion hcon,
   integer_field_accepts_bool exLib exCount true exIntDB 3 ⟨3, "Counted", Option.none⟩
     [("count", PyVal.bool true)] rfl rfl rfl rfl (fun hcon => List.noConfusion hcon)⟩

/-- C10 counterexample: the claim says a present key with a null value
passes for a field of any multiplicity and `validate` succeeds.  For the
multi-valued Text field "tags", the provided-values loop rejects null with
"expects multiple values" (null is not a list), and document-level validate
on its type errors as well (AttributeError from the required-fields loop)
instead of succeeding. -/
theorem null_multivalued_fails_cex :
    validateValues exLib [exTags] [("tags", PyVal.none)]
      = .error (.metadataValidationError "Field tags expects multiple values")
    ∧ validate_document_metadata exLib exTagsDB 4 [("tags", PyVal.none)]
        = .error (.attributeError attrErrMsg) :=
  ⟨rfl, rfl⟩

/-- C10 (amended): the per-field value check `validate_metadata_value`
accepts a null value unconditionally, for every field type and multiplicity;
in the provided-values loop a null satisfies a single-valued field but fails
a multi-valued one with "expects multiple values", because the loop demands
a list before any per-element check. -/
theorem null_value_validation (lib : PyLib) (f g : MetadataField)
    (hf : f.is_multi_valued = false) (hg : g.is_multi_valued = true) :
    validate_metadata_value lib f PyVal.none = .ok ()
    ∧ validate_metadata_value lib g PyVal.none = .ok ()
    ∧ validateValues lib [f] [(f.name, PyVal.none)] = .ok ()
    ∧ validateValues lib [g] [(g.name, PyVal.none)]
        = .error (.metadataValidationError ("Field " ++ g.name ++ " expects multiple values")) := by
  refine ⟨rfl, rfl, ?_, ?_⟩
  · simp [validateValues, hf, validate_metadata_value]
  · simp [validateValues, hg]

/-- C10 witness: null passes the per-field check for both the single-valued
Integer field "count" and the multi-valued Text field "tags"; the value loop
accepts it for "count" and rejects it for "tags". -/
theorem null_value_validation_witness :
    exCount.is_multi_valued = false
    ∧ exTags.is_multi_valued = true
    ∧ (validate_metadata_value exLib exCount PyVal.none = .ok ()
       ∧ validate_metadata_value exLib exTags PyVal.none = .ok ()
       ∧ validateValues exLib [exCount] [(exCount.name, PyVal.none)] = .ok ()
       ∧ validateValues exLib [exTags] [(exTags.name, PyVal.none)]
           = .error (.metadataValidationError
               ("Field " ++ exTags.name ++ " expects multiple values"))) :=
  ⟨rfl, rfl, null_value_validation exLib exCount exTags rfl rfl⟩

end DocManager
